import Mathlib

/-!
Verification development for the NetworkControlPlane repository.

The definitions below are a shallow embedding, translated from the Python
source, of the pieces of the system the stated properties concern:

* `network_control_plane/validation/validator.py` — the baseline-vs-current
  validator (`NetworkValidator.validate` and its sub-checks);
* `network_control_plane/automation/device.py` — the simulated device and its
  configuration interpreter (`SimulatedDevice.send_config`, `commit`,
  `connect`, `disconnect`);
* `network_control_plane/automation/session.py` — the device session state
  machine (`DeviceSession.deploy_config`, `disconnect`);
* `network_control_plane/telemetry/collector.py` — the telemetry parsers
  (`_parse_ping_output`, `_parse_proc_net_dev`).

Modelling conventions:
* Python `float` values are modelled as `Rat` (the properties below concern
  only comparisons and arithmetic on the parsed decimal values, not binary
  rounding); `datetime` timestamp fields are omitted (ambient clock).
* Python exceptions are modelled with `Except String` or `Option`; an
  in-place-mutating method is modelled as a state-passing function.
* The external Mininet node handle is modelled by an executor oracle
  `Exec : String → Option String`: `none` means the command invocation raised,
  `some out` means it returned output `out`.  The command outputs feed only
  log statements in the source, so they never influence control flow or state.
* Log statements are dropped; the quoting of device names inside error
  message strings is elided.
-/

namespace NCP

/-! ## Python string primitives -/

/-
The embedding does not use the `String` functions of the Lean core library
whose definitions recurse on UTF-8 positions (those do not reduce inside the
kernel); instead each Python `str` method used by the source is translated
here structurally over the character list of the string.
-/

/-- Python `str.strip()`: remove leading and trailing whitespace.  (ASCII
whitespace; Python additionally strips \x0b and \x0c, immaterial to the
inputs concerned.) -/
def pyStrip (s : String) : String :=
  ⟨((s.data.dropWhile Char.isWhitespace).reverse.dropWhile Char.isWhitespace).reverse⟩

/-- Python `s.startswith(pre)`. -/
def pyStartsWith (s pre : String) : Bool :=
  pre.data.isPrefixOf s.data

/-- Whitespace-splitting engine of Python `str.split()` with no argument:
split on whitespace runs, dropping empty pieces (`acc` holds the current
token, reversed). -/
def splitWsAux : List Char → List Char → List (List Char)
  | [], acc => if acc.isEmpty then [] else [acc.reverse]
  | c :: cs, acc =>
    if c.isWhitespace then
      (if acc.isEmpty then [] else [acc.reverse]) ++ splitWsAux cs []
    else splitWsAux cs (c :: acc)

/-- Python `str.split()` with no argument. -/
def pySplit (s : String) : List String :=
  (splitWsAux s.data []).map String.mk

/-- Separator-splitting engine of Python `s.split(sep)` for non-empty `sep`:
split at every non-overlapping, leftmost-first occurrence, keeping empty
pieces.  The fuel argument (instantiated with the string length, an upper
bound on the number of steps) keeps the recursion structural. -/
def splitSepAux (sep : List Char) : Nat → List Char → List Char → List (List Char)
  | _, [], acc => [acc.reverse]
  | 0, cs, acc => [acc.reverse ++ cs]
  | fuel + 1, c :: cs, acc =>
    if sep ≠ [] ∧ sep.isPrefixOf (c :: cs) then
      acc.reverse :: splitSepAux sep fuel (List.drop (sep.length - 1) cs) []
    else splitSepAux sep fuel cs (c :: acc)

/-- Python `s.split(sep)` for non-empty `sep`. -/
def pySplitOn (s sep : String) : List String :=
  (splitSepAux sep.data s.data.length s.data []).map String.mk

/-- Everything after the first occurrence of `sep`; Python
`s.split(sep, 1)[1]`, with `none` when `sep` does not occur (in Python that
indexing raises `IndexError`). -/
def afterFirst? (sep : List Char) : List Char → Option (List Char)
  | [] => none
  | c :: cs =>
    if sep.isPrefixOf (c :: cs) then some (List.drop sep.length (c :: cs))
    else afterFirst? sep cs

/-- Python `s.split(sep, 1)[1]` on strings (see `afterFirst?`). -/
def splitOnce? (s sep : String) : Option String :=
  (afterFirst? sep.data s.data).map String.mk

/-- Substring search engine of Python `sub in s`. -/
def listContains (sub : List Char) : List Char → Bool
  | [] => sub.isEmpty
  | c :: cs => sub.isPrefixOf (c :: cs) || listContains sub cs

/-- Python `sub in s` (substring containment). -/
def strContains (s sub : String) : Bool :=
  listContains sub.data s.data

/-- Replacement engine of Python `str.replace`: replace every
non-overlapping, leftmost-first occurrence of `pat` by `rep`.  The fuel
argument (instantiated with the string length) keeps the recursion
structural; fuel never runs out for non-empty `pat`. -/
def replaceChars (pat rep : List Char) : Nat → List Char → List Char
  | _, [] => []
  | 0, l => l
  | fuel + 1, c :: cs =>
    if pat ≠ [] ∧ pat.isPrefixOf (c :: cs) then
      rep ++ replaceChars pat rep fuel (List.drop (pat.length - 1) cs)
    else c :: replaceChars pat rep fuel cs

/-- Python `s.replace(pat, rep)` (as used in the source: `pat` is always the
non-empty literal string "eth"). -/
def pyReplace (s pat rep : String) : String :=
  if pat.isEmpty then s
  else ⟨replaceChars pat.data rep.data s.data.length s.data⟩

/-- Python `str.isdigit` restricted to ASCII digits (the only digit
characters the source can produce in interface names it generates commands
for). -/
def isPyDigits (s : String) : Bool :=
  !s.data.isEmpty && s.data.all Char.isDigit

/-- Numeric value of a list of ASCII digit characters. -/
def natOfDigitList (ds : List Char) : Nat :=
  ds.foldl (fun a c => 10 * a + (c.toNat - 48)) 0

/-- Numeric value of an ASCII digit string; Python `int(s)` on a string that
passed `isdigit`. -/
def natOfDigits (s : String) : Nat :=
  natOfDigitList s.data

/-- Python `int(s)` on a whitespace-free token: optional sign followed by one
or more ASCII digits; `none` models the `ValueError` raised otherwise. -/
def pyInt? (s : String) : Option Int :=
  match s.data with
  | [] => none
  | '+' :: ds =>
    if ds ≠ [] ∧ ds.all Char.isDigit then some (natOfDigitList ds) else none
  | '-' :: ds =>
    if ds ≠ [] ∧ ds.all Char.isDigit then some (-(natOfDigitList ds : Int)) else none
  | ds =>
    if ds.all Char.isDigit then some (natOfDigitList ds) else none

/-! ## Telemetry metrics data model (`telemetry/metrics.py`) -/

/-- `LatencyMetrics` dataclass (timestamp omitted). -/
structure LatencyMetrics where
  source : String
  destination : String
  min_latency_ms : Rat
  avg_latency_ms : Rat
  max_latency_ms : Rat
  packet_loss_percent : Rat
deriving DecidableEq

/-- `PathHop` dataclass. -/
structure PathHop where
  hop_number : Int
  hostname : Option String
  ip_address : String
  latency_ms : Option Rat
deriving DecidableEq

/-- `PathMetrics` dataclass (timestamp omitted). -/
structure PathMetrics where
  source : String
  destination : String
  hops : List PathHop
  total_hops : Nat
deriving DecidableEq

/-- `InterfaceCounter` dataclass (timestamp omitted). -/
structure InterfaceCounter where
  interface_name : String
  bytes_sent : Int
  bytes_received : Int
  packets_sent : Int
  packets_received : Int
  drops_sent : Int
  drops_received : Int
deriving DecidableEq

/-- `TelemetryMetrics` container dataclass (throughput field, unused by the
validator, omitted along with timestamps). -/
structure TelemetryMetrics where
  latency : Option LatencyMetrics := none
  path : Option PathMetrics := none
  interfaces : List InterfaceCounter := []
deriving DecidableEq

/-! ## Validator (`validation/validator.py`) -/

/-- `ValidationStatus` enum. -/
inductive ValidationStatus where
  | pass
  | fail
  | warning
deriving DecidableEq

/-- The `.value` string of a `ValidationStatus` member. -/
def ValidationStatus.value : ValidationStatus → String
  | .pass => "pass"
  | .fail => "fail"
  | .warning => "warning"

/-- `ValidationResult` dataclass. -/
structure ValidationResult where
  status : ValidationStatus
  message : String
  baseline_metrics : Option TelemetryMetrics := none
  current_metrics : Option TelemetryMetrics := none
  details : List String := []
deriving DecidableEq

/-- `ValidationResult.is_pass`. -/
def ValidationResult.isPass (r : ValidationResult) : Bool :=
  r.status == ValidationStatus.pass

/-- `NetworkValidator` with its constructor defaults
(`latency_threshold_ms=50.0`, `packet_loss_threshold_percent=5.0`,
`path_change_allowed=False`). -/
structure NetworkValidator where
  latency_threshold_ms : Rat := 50
  packet_loss_threshold_percent : Rat := 5
  path_change_allowed : Bool := false
deriving DecidableEq

/-- `NetworkValidator()` with every constructor argument left at its
default. -/
def defaultValidator : NetworkValidator := {}

/-- Stand-in for the two-decimal float rendering used inside evidence strings
(Python f-string `:.2f`); the numeric text of evidence lines is not the
subject of any property below. -/
def fmtF2 (q : Rat) : String := toString q

/-- `NetworkValidator._validate_latency`. -/
def NetworkValidator.validateLatency (v : NetworkValidator)
    (baseline current : LatencyMetrics) : ValidationResult :=
  let latency_increase := current.avg_latency_ms - baseline.avg_latency_ms
  if latency_increase > v.latency_threshold_ms then
    { status := ValidationStatus.fail
      message := "Latency validation: " ++ ValidationStatus.fail.value
      details := ["Latency exceeded baseline: " ++ fmtF2 latency_increase ++
        "ms increase (baseline: " ++ fmtF2 baseline.avg_latency_ms ++
        "ms, current: " ++ fmtF2 current.avg_latency_ms ++ "ms)"] }
  else
    { status := ValidationStatus.pass
      message := "Latency validation: " ++ ValidationStatus.pass.value
      details := ["Latency within threshold: " ++ fmtF2 current.avg_latency_ms ++
        "ms (baseline: " ++ fmtF2 baseline.avg_latency_ms ++ "ms)"] }

/-- `NetworkValidator._validate_packet_loss`. -/
def NetworkValidator.validatePacketLoss (v : NetworkValidator)
    (baseline current : LatencyMetrics) : ValidationResult :=
  let loss_increase := current.packet_loss_percent - baseline.packet_loss_percent
  if loss_increase > v.packet_loss_threshold_percent then
    { status := ValidationStatus.fail
      message := "Packet loss validation: " ++ ValidationStatus.fail.value
      details := ["Packet loss exceeded threshold: " ++ fmtF2 loss_increase ++
        "% increase (baseline: " ++ fmtF2 baseline.packet_loss_percent ++
        "%, current: " ++ fmtF2 current.packet_loss_percent ++ "%)"] }
  else
    { status := ValidationStatus.pass
      message := "Packet loss validation: " ++ ValidationStatus.pass.value
      details := ["Packet loss within threshold: " ++ fmtF2 current.packet_loss_percent ++
        "% (baseline: " ++ fmtF2 baseline.packet_loss_percent ++ "%)"] }

/-- `NetworkValidator._validate_path`. -/
def NetworkValidator.validatePath (_v : NetworkValidator)
    (baseline current : PathMetrics) : ValidationResult :=
  let baseline_hops := baseline.hops.map PathHop.ip_address
  let current_hops := current.hops.map PathHop.ip_address
  if baseline_hops ≠ current_hops then
    { status := ValidationStatus.warning
      message := "Path validation: " ++ ValidationStatus.warning.value
      details := ["Path change detected: " ++ toString baseline_hops.length ++
          " hops -> " ++ toString current_hops.length ++ " hops",
        "Baseline path: " ++ String.intercalate " -> " baseline_hops,
        "Current path: " ++ String.intercalate " -> " current_hops] }
  else
    { status := ValidationStatus.pass
      message := "Path validation: " ++ ValidationStatus.pass.value
      details := ["Path unchanged: routing behavior consistent"] }

/-- `NetworkValidator.validate`: runs the latency, packet-loss and path
sub-checks (each only when both snapshots carry the relevant optional field),
escalating `status` from its initial `PASS` exactly where the source does. -/
def NetworkValidator.validate (v : NetworkValidator)
    (baseline current : TelemetryMetrics) : ValidationResult :=
  let st0 := ValidationStatus.pass
  let d0 : List String := []
  let s1 :=
    match baseline.latency, current.latency with
    | some bl, some cl =>
      let r := v.validateLatency bl cl
      ((if ¬ r.isPass then ValidationStatus.fail else st0), d0 ++ r.details)
    | _, _ => (st0, d0)
  let s2 :=
    match baseline.latency, current.latency with
    | some bl, some cl =>
      let r := v.validatePacketLoss bl cl
      ((if ¬ r.isPass then ValidationStatus.fail else s1.1), s1.2 ++ r.details)
    | _, _ => s1
  let s3 :=
    match baseline.path, current.path with
    | some bp, some cp =>
      let r := v.validatePath bp cp
      ((if ¬ r.isPass ∧ ¬ v.path_change_allowed then ValidationStatus.fail else s2.1),
        s2.2 ++ r.details)
    | _, _ => s2
  let message :=
    if s3.1 = ValidationStatus.pass then
      "Network validation passed: all metrics within acceptable thresholds"
    else
      "Network validation failed: metrics exceeded acceptable thresholds"
  { status := s3.1
    message := message
    baseline_metrics := some baseline
    current_metrics := some current
    details := s3.2 }

/-- `NetworkValidator.validate_connectivity`. -/
def NetworkValidator.validateConnectivity (_v : NetworkValidator)
    (metrics : TelemetryMetrics) : ValidationResult :=
  match metrics.latency with
  | some lat =>
    if lat.packet_loss_percent ≥ 100 then
      { status := ValidationStatus.fail
        message := "Connectivity validation: " ++ ValidationStatus.fail.value
        details := ["Connectivity failed: 100% packet loss"] }
    else if lat.packet_loss_percent > 50 then
      { status := ValidationStatus.fail
        message := "Connectivity validation: " ++ ValidationStatus.fail.value
        details := ["Connectivity degraded: " ++ fmtF2 lat.packet_loss_percent ++
          "% packet loss"] }
    else
      { status := ValidationStatus.pass
        message := "Connectivity validation: " ++ ValidationStatus.pass.value
        details := ["Connectivity OK: " ++ fmtF2 lat.packet_loss_percent ++
          "% packet loss, " ++ fmtF2 lat.avg_latency_ms ++ "ms latency"] }
  | none =>
    { status := ValidationStatus.fail
      message := "Connectivity validation: " ++ ValidationStatus.fail.value
      details := ["Connectivity validation failed: no latency metrics available"] }

/-! ## Simulated device and configuration interpreter (`automation/device.py`) -/

/-- Executor oracle standing in for the Mininet node handle: maps a command
string to `some output`, or to `none` when the invocation raises. -/
abbrev Exec : Type := String → Option String

/-- Invoke a list of commands in order on the node, stopping after the first
one whose invocation raises (the exception is caught by the per-line handler
in `send_config`); returns the commands actually invoked. -/
def issueCmds (exec : Exec) : List String → List String
  | [] => []
  | c :: cs =>
    match exec c with
    | some _ => c :: issueCmds exec cs
    | none => [c]

/-- `SimulatedDevice` state: name, type tag, connection and pending flags,
whether a backing node object exists, applied-config history, and the
current-interface register.  (The node handle itself is the `Exec` oracle,
passed to `sendConfig` separately so that the state stays first-order.) -/
structure SimDevice where
  device_name : String
  device_type : String
  connected : Bool := false
  config_pending : Bool := false
  hasNode : Bool
  applied_config : List String := []
  current_interface : Option String := none
deriving DecidableEq

/-- Interface-name resolution for an `ip address` line
(`device.py` lines 191–206): when the current-interface register is set (and
non-empty, per Python truthiness), strip every occurrence of the literal
substring "eth" from the context name; for switches, if the remainder is all
digits, increment it by one, otherwise fall back to "1"; non-switch devices
keep the remainder verbatim.  With no register set, default to numeral 1 for
switches and 0 for every other device type. -/
def deriveIfName (device_type device_name : String) (ctx : Option String) : String :=
  match ctx with
  | some ci =>
    if ¬ ci.data.isEmpty then
      let ethNum := pyReplace ci "eth" ""
      let ethNum2 :=
        if device_type = "switch" then
          if isPyDigits ethNum then toString (natOfDigits ethNum + 1) else "1"
        else ethNum
      device_name ++ "-eth" ++ ethNum2
    else
      if device_type = "switch" then device_name ++ "-eth1"
      else device_name ++ "-eth0"
  | none =>
    if device_type = "switch" then device_name ++ "-eth1"
    else device_name ++ "-eth0"

/-- The dotted-decimal-mask-to-CIDR table of `send_config`, with its `/24`
default for unmapped masks. -/
def cidrOfMask (m : String) : String :=
  if m = "255.255.255.0" then "/24"
  else if m = "255.255.0.0" then "/16"
  else if m = "255.0.0.0" then "/8"
  else "/24"

/-- Whether a configuration line matches one of the four recognized
primitives of `send_config` (the `if`/`elif` branch conditions, verbatim). -/
def lineRecognized (line : String) : Bool :=
  let stripped := pyStrip line
  pyStartsWith stripped "hostname " ||
  pyStartsWith stripped "interface " ||
  (pyStartsWith stripped "ip address " ||
    (pyStartsWith line " " && strContains stripped "ip address")) ||
  pyStartsWith line "ip route "

/-- Apply one configuration line: the body of the `for` loop of
`send_config`.  Returns the new current-interface register and the node
commands invoked for this line.  A parse failure inside a branch (Python
`IndexError`) or a raising command invocation is caught by the per-line
handler: it yields no further commands and never propagates. -/
def applyLine (exec : Exec) (device_type device_name : String)
    (ctx : Option String) (line : String) : Option String × List String :=
  let stripped := pyStrip line
  if pyStartsWith stripped "hostname " then
    match splitOnce? stripped "hostname " with
    | some rest => (ctx, issueCmds exec ["hostname " ++ pyStrip rest])
    | none => (ctx, [])
  else if pyStartsWith stripped "interface " then
    match splitOnce? stripped "interface " with
    | some rest => (some (pyStrip rest), [])
    | none => (ctx, [])
  else if pyStartsWith stripped "ip address " ||
      (pyStartsWith line " " && strContains stripped "ip address") then
    let ipPart? :=
      if strContains line " ip address " then
        (splitOnce? line " ip address ").map pyStrip
      else
        (splitOnce? stripped "ip address ").map pyStrip
    match ipPart? with
    | none => (ctx, [])
    | some ip_part =>
      match (pySplit ip_part).head? with
      | none => (ctx, [])
      | some ip_addr =>
        let netmask := (pySplit ip_part)[1]?
        let if_name := deriveIfName device_type device_name ctx
        let cidr :=
          match netmask with
          | some m => cidrOfMask m
          | none => "/24"
        let cmds :=
          ["ip addr flush dev " ++ if_name ++ " 2>&1",
           "ip addr add " ++ ip_addr ++ cidr ++ " dev " ++ if_name ++ " 2>&1",
           "ip link set " ++ if_name ++ " up 2>/dev/null || true"]
          ++ (if device_type = "switch" then
                ["sysctl -w net.ipv4.ip_forward=1 > /dev/null 2>&1",
                 "echo 1 > /proc/sys/net/ipv4/conf/" ++ if_name ++ "/proxy_arp 2>/dev/null || true",
                 "echo 1 > /proc/sys/net/ipv4/conf/" ++ if_name ++ "/arp_ignore 2>/dev/null || true",
                 "echo 2 > /proc/sys/net/ipv4/conf/" ++ if_name ++ "/arp_announce 2>/dev/null || true"]
              else [])
          ++ ["ip addr show " ++ if_name ++ " 2>/dev/null"]
        (ctx, issueCmds exec cmds)
  else if pyStartsWith line "ip route " then
    match splitOnce? line "ip route " with
    | none => (ctx, [])
    | some route_part0 =>
      let route_part := pyStrip route_part0
      match (pySplit route_part).head? with
      | none => (ctx, [])
      | some network0 =>
        match (pySplit route_part)[1]? with
        | none => (ctx, [])
        | some next_hop =>
          let network := if strContains network0 "/" then network0 else network0 ++ "/24"
          (ctx, issueCmds exec
            ["ip route del " ++ network ++ " via " ++ next_hop ++ " 2>/dev/null || true",
             "ip route add " ++ network ++ " via " ++ next_hop ++ " 2>&1"])
  else (ctx, [])

/-- Process the filtered configuration lines in order, threading the
current-interface register and concatenating the invoked commands. -/
def processLines (exec : Exec) (device_type device_name : String) :
    Option String → List String → Option String × List String
  | ctx, [] => (ctx, [])
  | ctx, l :: ls =>
    let step := applyLine exec device_type device_name ctx l
    let rest := processLines exec device_type device_name step.1 ls
    (rest.1, step.2 ++ rest.2)

/-- The line filter of `send_config`: drop lines that are blank after
trimming or whose trimmed form starts with `#`. -/
def configLines (config : String) : List String :=
  (pySplitOn config "\n").filter fun l =>
    !(pyStrip l).data.isEmpty && !pyStartsWith (pyStrip l) "#"

/-- `SimulatedDevice.connect`. -/
def SimDevice.connect (d : SimDevice) : Except String SimDevice :=
  if d.connected then .ok d
  else if ¬ d.hasNode then
    .error ("Cannot connect to " ++ d.device_name ++ ": no node object")
  else .ok { d with connected := true }

/-- `SimulatedDevice.send_config`: raises `DeviceConnectionError` when the
device is not connected or has no node object; otherwise filters the lines,
resets the current-interface register, applies every line best-effort (the
per-line handler absorbs all line-level failures), appends the filtered lines
to the history, sets the pending flag, and reports the processed-line count
(the count logged by the source).  The second component is the full trace of
node commands invoked. -/
def SimDevice.sendConfig (exec : Exec) (d : SimDevice) (config : String) :
    Except String (SimDevice × List String × Nat) :=
  if ¬ d.connected then
    .error ("Device " ++ d.device_name ++ " not connected")
  else if ¬ d.hasNode then
    .error ("Cannot apply config to " ++ d.device_name ++ ": no node object")
  else
    let config_lines := configLines config
    let pr := processLines exec d.device_type d.device_name none config_lines
    .ok ({ d with
            applied_config := d.applied_config ++ config_lines,
            config_pending := true,
            current_interface := pr.1 },
         pr.2, config_lines.length)

/-- `SimulatedDevice.commit`. -/
def SimDevice.commit (d : SimDevice) : Except String SimDevice :=
  if ¬ d.connected then
    .error ("Device " ++ d.device_name ++ " not connected")
  else if ¬ d.config_pending then .ok d
  else .ok { d with config_pending := false }

/-- `SimulatedDevice.disconnect`. -/
def SimDevice.disconnect (d : SimDevice) : Except String SimDevice :=
  if ¬ d.connected then .ok d else .ok { d with connected := false }

/-! ## Device session state machine (`automation/session.py`) -/

/-- The lifecycle operations of an underlying `NetworkDevice`, over an
abstract device-state type `δ`.  Each operation returns the device state
after the call together with `some message` when it raised (a raising Python
method can still have mutated the object in place, so the state is returned
in both cases). -/
structure DevOps (δ : Type) where
  devConnect : δ → δ × Option String
  devSendConfig : δ → String → δ × Option String
  devCommit : δ → δ × Option String
  devDisconnect : δ → δ × Option String

/-- `DeviceSession` state: the wrapped device and the session `_connected`
flag. -/
structure Session (δ : Type) where
  device : δ
  connected : Bool := false

/-- `DeviceSession.connect`: already-connected sessions return at once;
otherwise the device-level connect runs, and only on success is the session
flag set; a device-level exception is wrapped as a `DeviceConnectionError`
message. -/
def Session.connect {δ : Type} (ops : DevOps δ) (s : Session δ) :
    Session δ × Option String :=
  if s.connected then (s, none)
  else
    let r := ops.devConnect s.device
    match r.2 with
    | none => ({ device := r.1, connected := true }, none)
    | some msg =>
      ({ s with device := r.1 }, some ("Failed to connect to device: " ++ msg))

/-- `DeviceSession.disconnect`: a total function — it never surfaces an
error.  A session that is not connected returns immediately; a device-level
exception during disconnect is caught and logged, and the session flag is
left as it was (still `true`). -/
def Session.disconnect {δ : Type} (ops : DevOps δ) (s : Session δ) : Session δ :=
  if ¬ s.connected then s
  else
    let r := ops.devDisconnect s.device
    match r.2 with
    | none => { device := r.1, connected := false }
    | some _ => { s with device := r.1 }

/-- `DeviceSession.__exit__`: calls `disconnect` and returns `False` (never
suppressing, and never raising itself). -/
def Session.exitCtx {δ : Type} (ops : DevOps δ) (s : Session δ) :
    Session δ × Bool :=
  (Session.disconnect ops s, false)

/-- `DeviceSession.deploy_config`: requires the session to be connected
(otherwise it raises without touching the device); then device-level
`send_config`, then — when `commit` is requested — device-level `commit`;
any exception from either step is wrapped as a `DeviceConnectionError`
message, and the session `_connected` flag is never modified. -/
def Session.deployConfig {δ : Type} (ops : DevOps δ) (s : Session δ)
    (config : String) (commit : Bool) : Session δ × Option String :=
  if ¬ s.connected then
    (s, some "Session not connected to device")
  else
    let r1 := ops.devSendConfig s.device config
    match r1.2 with
    | some msg =>
      ({ s with device := r1.1 },
       some ("Failed to deploy configuration to device: " ++ msg))
    | none =>
      if commit then
        let r2 := ops.devCommit r1.1
        match r2.2 with
        | some msg =>
          ({ s with device := r2.1 },
           some ("Failed to deploy configuration to device: " ++ msg))
        | none => ({ s with device := r2.1 }, none)
      else ({ s with device := r1.1 }, none)

/-- The `DevOps` instantiation for a `SimulatedDevice` backed by the executor
oracle `exec`.  Every `SimulatedDevice` lifecycle method validates its
preconditions before mutating anything, so on error the state is returned
unchanged. -/
def simOps (exec : Exec) : DevOps SimDevice where
  devConnect := fun d =>
    match d.connect with
    | .ok d2 => (d2, none)
    | .error e => (d, some e)
  devSendConfig := fun d config =>
    match SimDevice.sendConfig exec d config with
    | .ok r => (r.1, none)
    | .error e => (d, some e)
  devCommit := fun d =>
    match d.commit with
    | .ok d2 => (d2, none)
    | .error e => (d, some e)
  devDisconnect := fun d =>
    match d.disconnect with
    | .ok d2 => (d2, none)
    | .error e => (d, some e)

/-! ## Telemetry parsers (`telemetry/collector.py`) -/

/-- Maximal run of ASCII digits at the head of a character list, with the
remainder. -/
def digitRun : List Char → List Char × List Char
  | [] => ([], [])
  | c :: cs =>
    if c.isDigit then
      let r := digitRun cs
      (c :: r.1, r.2)
    else ([], c :: cs)

/-- Maximal run of characters of the class `[\d.]` at the head of a
character list, with the remainder. -/
def dotDigitRun : List Char → List Char × List Char
  | [] => ([], [])
  | c :: cs =>
    if c.isDigit || c = '.' then
      let r := dotDigitRun cs
      (c :: r.1, r.2)
    else ([], c :: cs)

/-- The literal tail of the packet-loss pattern. -/
def lossLit : List Char := "% packet loss".data

/-- Attempt the pattern `(\d+(?:\.\d+)?)% packet loss` at the current
position.  `\d+` is greedy; because no shorter digit run can be followed by
`.` or `%`, greedy maximal runs realize the backtracking semantics exactly.
Returns the captured integer and fractional digit runs (fraction empty when
the optional group is absent). -/
def matchLossAt (cs : List Char) : Option (List Char × List Char) :=
  let p := digitRun cs
  if p.1 = [] then none
  else
    match p.2 with
    | '.' :: rest2 =>
      let q := digitRun rest2
      if q.1 ≠ [] ∧ lossLit.isPrefixOf q.2 then some (p.1, q.1)
      else if lossLit.isPrefixOf p.2 then some (p.1, []) else none
    | rest => if lossLit.isPrefixOf rest then some (p.1, []) else none

/-- `re.search` for the packet-loss pattern: leftmost match wins. -/
def searchLossAux : List Char → Option (List Char × List Char)
  | [] => none
  | c :: cs =>
    match matchLossAt (c :: cs) with
    | some r => some r
    | none => searchLossAux cs

/-- Decimal value of an integer digit run plus fractional digit run. -/
def ratOfDigitParts (d f : List Char) : Rat :=
  (natOfDigitList d : Rat) + (natOfDigitList f : Rat) / ((10 : Rat) ^ f.length)

/-- The packet-loss match of `_parse_ping_output` on a raw output string. -/
def pingLossMatch (output : String) : Option (List Char × List Char) :=
  searchLossAux output.data

/-- The packet-loss percentage extracted by `_parse_ping_output`: the value
captured by `(\d+(?:\.\d+)?)% packet loss`, defaulting to `0.0` when the
pattern is absent. -/
def pingLoss (output : String) : Rat :=
  match pingLossMatch output with
  | some r => ratOfDigitParts r.1 r.2
  | none => 0

/-- The literal head of the rtt-summary pattern. -/
def rttLit : List Char := "min/avg/max".data

/-- Consume `[^=]*=`: skip to just past the first `=`, or fail when none
remains. -/
def takeToEq : List Char → Option (List Char)
  | [] => none
  | c :: cs => if c = '=' then some cs else takeToEq cs

/-- Consume `\s*` greedily. -/
def wsRun : List Char → List Char
  | [] => []
  | c :: cs => if c.isWhitespace then wsRun cs else c :: cs

/-- Attempt `min/avg/max[^=]*=\s*([\d.]+)/([\d.]+)/([\d.]+)` at the current
position, returning the three captured `[\d.]+` runs.  (`[^=]*` cannot cross
an `=`, and no shorter `\s*` or `[\d.]+` run can satisfy the next pattern
element, so maximal runs realize the backtracking semantics.) -/
def matchRttAt (cs : List Char) : Option (List Char × List Char × List Char) :=
  if rttLit.isPrefixOf cs then
    match takeToEq (cs.drop rttLit.length) with
    | none => none
    | some r1 =>
      let g1 := dotDigitRun (wsRun r1)
      if g1.1 = [] then none
      else
        match g1.2 with
        | '/' :: r3 =>
          let g2 := dotDigitRun r3
          if g2.1 = [] then none
          else
            match g2.2 with
            | '/' :: r4 =>
              let g3 := dotDigitRun r4
              if g3.1 = [] then none else some (g1.1, g2.1, g3.1)
            | _ => none
        | _ => none
  else none

/-- `re.search` for the rtt-summary pattern: leftmost match wins. -/
def searchRttAux : List Char → Option (List Char × List Char × List Char)
  | [] => none
  | c :: cs =>
    match matchRttAt (c :: cs) with
    | some r => some r
    | none => searchRttAux cs

/-- The rtt-summary match of `_parse_ping_output` on a raw output string. -/
def pingRttMatch (output : String) : Option (List Char × List Char × List Char) :=
  searchRttAux output.data

/-- Python `float(s)` on a token drawn from the class `[\d.]+`: valid when it
holds at least one digit and at most one dot; `none` models the `ValueError`
raised otherwise (e.g. on "1.2.3"). -/
def pyFloatDotted? (s : String) : Option Rat :=
  let cs := s.data
  if ¬ cs.any Char.isDigit then none
  else if (cs.filter (fun c => c = '.')).length = 0 then
    some (natOfDigitList cs)
  else if (cs.filter (fun c => c = '.')).length = 1 then
    some (ratOfDigitParts (cs.takeWhile fun c => c ≠ '.')
      ((cs.dropWhile fun c => c ≠ '.').tail))
  else none

/-- `TelemetryCollector._parse_ping_output`: extracts the packet-loss
percentage (default `0.0`) and the min/avg/max latencies (default `0.0` when
the summary line is absent).  `none` models the `ValueError` that Python
`float` raises when a captured `[\d.]+` group is not a valid float literal. -/
def parsePingOutput (output source destination : String) : Option LatencyMetrics :=
  let packet_loss := pingLoss output
  match pingRttMatch output with
  | some g =>
    match pyFloatDotted? ⟨g.1⟩, pyFloatDotted? ⟨g.2.1⟩, pyFloatDotted? ⟨g.2.2⟩ with
    | some mn, some av, some mx =>
      some { source := source, destination := destination,
             min_latency_ms := mn, avg_latency_ms := av, max_latency_ms := mx,
             packet_loss_percent := packet_loss }
    | _, _, _ => none
  | none =>
    some { source := source, destination := destination,
           min_latency_ms := 0, avg_latency_ms := 0, max_latency_ms := 0,
           packet_loss_percent := packet_loss }

/-- The `/proc/net/dev` line loop of `_parse_proc_net_dev`: skip blank lines,
lines without a colon, lines whose colon split has more than two parts, and
lines with fewer than 16 whitespace-separated fields after the colon; on the
remaining lines read fields 0, 1, 3, 8, 9, 11 with Python `int`, whose
`ValueError` (modelled as `Except.error`) aborts the whole parse. -/
def procNetDevGo : List String → Except String (List InterfaceCounter)
  | [] => .ok []
  | line0 :: rest =>
    let line := pyStrip line0
    if line.data.isEmpty = true ∨ strContains line ":" = false then procNetDevGo rest
    else
      match pySplitOn line ":" with
      | [p0, p1] =>
        let stats := pySplit p1
        if stats.length < 16 then procNetDevGo rest
        else
          match pyInt? (stats.getD 0 ""), pyInt? (stats.getD 1 ""),
                pyInt? (stats.getD 3 ""), pyInt? (stats.getD 8 ""),
                pyInt? (stats.getD 9 ""), pyInt? (stats.getD 11 "") with
          | some br, some pr, some dr, some bs, some ps, some ds =>
            match procNetDevGo rest with
            | .ok cs =>
              .ok ({ interface_name := pyStrip p0,
                     bytes_sent := bs, bytes_received := br,
                     packets_sent := ps, packets_received := pr,
                     drops_sent := ds, drops_received := dr } :: cs)
            | .error e => .error e
          | _, _, _, _, _, _ => .error "ValueError: invalid literal for int"
      | _ => procNetDevGo rest

/-- `TelemetryCollector._parse_proc_net_dev` (the `node_name` argument is
unused by the source beyond logging). -/
def parseProcNetDev (output : String) (_node_name : String) :
    Except String (List InterfaceCounter) :=
  procNetDevGo (pySplitOn output "\n")

/-! ## Auxiliary predicates and concrete inputs used by the statements below -/

/-- The Boolean condition under which `validate` reports an overall `FAIL`. -/
def overallFailB (v : NetworkValidator) (b c : TelemetryMetrics) : Bool :=
  (match b.latency, c.latency with
   | some bl, some cl =>
     decide (cl.avg_latency_ms - bl.avg_latency_ms > v.latency_threshold_ms) ||
     decide (cl.packet_loss_percent - bl.packet_loss_percent > v.packet_loss_threshold_percent)
   | _, _ => false) ||
  (match b.path, c.path with
   | some bp, some cp =>
     decide (bp.hops.map PathHop.ip_address ≠ cp.hops.map PathHop.ip_address) &&
     !v.path_change_allowed
   | _, _ => false)

/-! ## Concrete snapshots used as counterexample/witness inputs -/

/-- A latency sample with 2 ms average and 0 % loss. -/
def cexLat : LatencyMetrics :=
  { source := "h1", destination := "h2", min_latency_ms := 1, avg_latency_ms := 2,
    max_latency_ms := 3, packet_loss_percent := 0 }

/-- A one-hop path through 10.0.0.1. -/
def cexPathA : PathMetrics :=
  { source := "h1", destination := "h2",
    hops := [{ hop_number := 1, hostname := some "s1", ip_address := "10.0.0.1",
               latency_ms := some 1 }],
    total_hops := 1 }

/-- A one-hop path through 10.0.1.1 (different hop-IP sequence). -/
def cexPathB : PathMetrics :=
  { source := "h1", destination := "h2",
    hops := [{ hop_number := 1, hostname := some "s2", ip_address := "10.0.1.1",
               latency_ms := some 1 }],
    total_hops := 1 }

/-- Baseline snapshot: latency 2 ms / 0 % loss, path via 10.0.0.1. -/
def cexBase : TelemetryMetrics := { latency := some cexLat, path := some cexPathA }

/-- Current snapshot: identical latency metrics, path via 10.0.1.1. -/
def cexCurr : TelemetryMetrics := { latency := some cexLat, path := some cexPathB }

/-- A validator explicitly configured with `path_change_allowed=True`
(thresholds left at their defaults). -/
def pathAllowedValidator : NetworkValidator := { path_change_allowed := true }

/-- A benign executor: every command returns empty output. -/
def cexExec : Exec := fun _ => some ""

/-- A connected host device with a backing node and empty history. -/
def cexDev : SimDevice :=
  { device_name := "h1", device_type := "host", connected := true, hasNode := true }

/-- A session wrapping the concrete connected device, itself connected. -/
def cexSession : Session SimDevice := { device := cexDev, connected := true }

/-- Device operations whose disconnect always raises (models an underlying
device failing during teardown). -/
def cexRaisingOps : DevOps SimDevice :=
  { devConnect := fun d => (d, none)
    devSendConfig := fun d _ => (d, none)
    devCommit := fun d => (d, none)
    devDisconnect := fun d => (d, some "simulated teardown failure") }

/-- A `/proc/net/dev` line on which the six `int` field reads of the parser
all succeed, or that the parser skips outright (blank, no colon, multi-colon
split, or fewer than 16 fields). -/
def goodCounterLine (line0 : String) : Bool :=
  let line := pyStrip line0
  if line.data.isEmpty = true ∨ strContains line ":" = false then true
  else
    match pySplitOn line ":" with
    | [_, p1] =>
      let stats := pySplit p1
      if stats.length < 16 then true
      else
        (pyInt? (stats.getD 0 "")).isSome && (pyInt? (stats.getD 1 "")).isSome &&
        (pyInt? (stats.getD 3 "")).isSome && (pyInt? (stats.getD 8 "")).isSome &&
        (pyInt? (stats.getD 9 "")).isSome && (pyInt? (stats.getD 11 "")).isSome
    | _ => true

/-- A `/proc/net/dev` line from which the parser builds a record: non-blank,
a single colon splitting it into two parts, and at least 16
whitespace-separated fields after the colon. -/
def counterLineKept (line0 : String) : Bool :=
  let line := pyStrip line0
  if line.data.isEmpty = true ∨ strContains line ":" = false then false
  else
    match pySplitOn line ":" with
    | [_, p1] => if (pySplit p1).length < 16 then false else true
    | _ => false

/-- Decidable equality for `Except` results, used to evaluate the parser on
concrete inputs. -/
instance {e a : Type} [DecidableEq e] [DecidableEq a] : DecidableEq (Except e a)
  | .ok x, .ok y => decidable_of_iff (x = y) (by simp)
  | .ok _, .error _ => isFalse (by simp)
  | .error _, .ok _ => isFalse (by simp)
  | .error x, .error y => decidable_of_iff (x = y) (by simp)

/-! ## Validator lemmas -/

theorem isPass_iff (r : ValidationResult) :
    r.isPass = true ↔ r.status = ValidationStatus.pass := by
  simp [ValidationResult.isPass]

theorem validateLatency_status (v : NetworkValidator) (b c : LatencyMetrics) :
    (v.validateLatency b c).status =
      (if c.avg_latency_ms - b.avg_latency_ms > v.latency_threshold_ms
       then ValidationStatus.fail else ValidationStatus.pass) := by
  simp only [NetworkValidator.validateLatency]
  split <;> rfl

theorem validatePacketLoss_status (v : NetworkValidator) (b c : LatencyMetrics) :
    (v.validatePacketLoss b c).status =
      (if c.packet_loss_percent - b.packet_loss_percent > v.packet_loss_threshold_percent
       then ValidationStatus.fail else ValidationStatus.pass) := by
  simp only [NetworkValidator.validatePacketLoss]
  split <;> rfl

theorem validatePath_status (v : NetworkValidator) (b c : PathMetrics) :
    (v.validatePath b c).status =
      (if b.hops.map PathHop.ip_address ≠ c.hops.map PathHop.ip_address
       then ValidationStatus.warning else ValidationStatus.pass) := by
  simp only [NetworkValidator.validatePath]
  split <;> rfl

theorem validate_status_eq (v : NetworkValidator) (b c : TelemetryMetrics) :
    (v.validate b c).status =
      (if overallFailB v b c then ValidationStatus.fail else ValidationStatus.pass) := by
  rcases hbl : b.latency with _ | bl <;> rcases hcl : c.latency with _ | cl <;>
    rcases hbp : b.path with _ | bp <;> rcases hcp : c.path with _ | cp
  all_goals
    try simp_all [NetworkValidator.validate, overallFailB, ValidationResult.isPass,
      validateLatency_status, validatePacketLoss_status, validatePath_status]
  all_goals try split_ifs
  all_goals try push_neg at *
  all_goals
    first
      | rfl
      | linarith
      | (casesm* _ ∨ _, _ ∧ _ <;> first | linarith | simp_all)

/-! ## C1 -/

/-- C1 counterexample: in the default configuration `path_change_allowed`
is `false`, not `true`, and on a concrete pair of snapshots whose hop-IP
sequences differ while both the latency and the packet-loss sub-checks pass,
`validate` returns an overall `FAIL` verdict — contradicting the claim that
the default-configured validator never escalates a path difference to Fail. -/
theorem default_validator_path_diff_fails_cex :
    defaultValidator.path_change_allowed = false
  ∧ (defaultValidator.validateLatency cexLat cexLat).status = ValidationStatus.pass
  ∧ (defaultValidator.validatePacketLoss cexLat cexLat).status = ValidationStatus.pass
  ∧ cexPathA.hops.map PathHop.ip_address ≠ cexPathB.hops.map PathHop.ip_address
  ∧ (defaultValidator.validate cexBase cexCurr).status = ValidationStatus.fail := by
  refine ⟨rfl, ?_, ?_, by simp [cexPathA, cexPathB], ?_⟩
  · rw [validateLatency_status]
    norm_num [cexLat, defaultValidator]
  · rw [validatePacketLoss_status]
    norm_num [cexLat, defaultValidator]
  · rw [validate_status_eq]
    have h0 : overallFailB defaultValidator cexBase cexCurr = true := by
      simp [overallFailB, cexBase, cexCurr, cexPathA, cexPathB, defaultValidator]
    rw [h0]
    rfl

/-- C1 (amended): in the default configuration `path_change_allowed` is
`false`, so for snapshots whose hop-IP sequences differ while the latency and
loss checks pass, the default validator escalates the path difference to an
overall Fail; only a validator explicitly configured with
`path_change_allowed = true` leaves the overall verdict at Pass, the path
sub-check itself reporting Warning. -/
theorem path_change_escalation (b c : TelemetryMetrics) (bl cl : LatencyMetrics)
    (bp cp : PathMetrics)
    (hbl : b.latency = some bl) (hcl : c.latency = some cl)
    (hlat : ¬ (cl.avg_latency_ms - bl.avg_latency_ms > (50 : Rat)))
    (hloss : ¬ (cl.packet_loss_percent - bl.packet_loss_percent > (5 : Rat)))
    (hbp : b.path = some bp) (hcp : c.path = some cp)
    (hdiff : bp.hops.map PathHop.ip_address ≠ cp.hops.map PathHop.ip_address) :
    defaultValidator.path_change_allowed = false
  ∧ (defaultValidator.validate b c).status = ValidationStatus.fail
  ∧ (pathAllowedValidator.validate b c).status = ValidationStatus.pass
  ∧ (pathAllowedValidator.validatePath bp cp).status = ValidationStatus.warning := by
  refine ⟨rfl, ?_, ?_, ?_⟩
  · rw [validate_status_eq]
    have h0 : overallFailB defaultValidator b c = true := by
      simp only [overallFailB, hbl, hcl, hbp, hcp, defaultValidator]
      simp only [Bool.not_false, Bool.and_true, Bool.or_eq_true, decide_eq_true_eq]
      exact Or.inr hdiff
    rw [h0]
    rfl
  · rw [validate_status_eq]
    have h0 : overallFailB pathAllowedValidator b c = false := by
      simp only [overallFailB, hbl, hcl, hbp, hcp, pathAllowedValidator]
      simp only [Bool.not_true, Bool.and_false, Bool.or_false, Bool.or_eq_false_iff,
        decide_eq_false_iff_not]
      exact ⟨hlat, hloss⟩
    rw [h0]
    rfl
  · rw [validatePath_status]
    simp [hdiff]

/-- C1 witness: the amended statement instantiated at the concrete snapshots
`cexBase`/`cexCurr`. -/
theorem path_change_escalation_witness :
    defaultValidator.path_change_allowed = false
  ∧ (defaultValidator.validate cexBase cexCurr).status = ValidationStatus.fail
  ∧ (pathAllowedValidator.validate cexBase cexCurr).status = ValidationStatus.pass
  ∧ (pathAllowedValidator.validatePath cexPathA cexPathB).status = ValidationStatus.warning :=
  path_change_escalation cexBase cexCurr cexLat cexLat cexPathA cexPathB
    rfl rfl (by norm_num [cexLat]) (by norm_num [cexLat]) rfl rfl
    (by simp [cexPathA, cexPathB])

/-! ## C2 -/

/-- The overall-Fail condition, in propositional form. -/
theorem overallFailB_iff (v : NetworkValidator) (b c : TelemetryMetrics) :
    overallFailB v b c = true ↔
      ((∃ bl cl, b.latency = some bl ∧ c.latency = some cl ∧
        (cl.avg_latency_ms - bl.avg_latency_ms > v.latency_threshold_ms ∨
         cl.packet_loss_percent - bl.packet_loss_percent > v.packet_loss_threshold_percent))
       ∨ (∃ bp cp, b.path = some bp ∧ c.path = some cp ∧
           bp.hops.map PathHop.ip_address ≠ cp.hops.map PathHop.ip_address ∧
           v.path_change_allowed = false)) := by
  unfold overallFailB
  rcases hbl : b.latency with _ | bl <;> rcases hcl : c.latency with _ | cl <;>
    rcases hbp : b.path with _ | bp <;> rcases hcp : c.path with _ | cp <;>
    simp_all

/-- C2 counterexample: on a concrete pair of snapshots the three sub-checks
report Pass (latency), Pass (loss) and Warning (path) — so the most severe
sub-check status is Warning — yet the overall verdict of the default
validator is `FAIL`, and the overall verdict of a validator with
`path_change_allowed=True` is `PASS`; in neither case is the overall status
the claimed Warning. -/
theorem overall_never_warning_cex :
    (defaultValidator.validateLatency cexLat cexLat).status = ValidationStatus.pass
  ∧ (defaultValidator.validatePacketLoss cexLat cexLat).status = ValidationStatus.pass
  ∧ (defaultValidator.validatePath cexPathA cexPathB).status = ValidationStatus.warning
  ∧ (defaultValidator.validate cexBase cexCurr).status = ValidationStatus.fail
  ∧ (pathAllowedValidator.validate cexBase cexCurr).status = ValidationStatus.pass := by
  refine ⟨?_, ?_, ?_, ?_, ?_⟩
  · rw [validateLatency_status]
    norm_num [cexLat, defaultValidator]
  · rw [validatePacketLoss_status]
    norm_num [cexLat, defaultValidator]
  · rw [validatePath_status]
    simp [cexPathA, cexPathB]
  · rw [validate_status_eq]
    have h0 : overallFailB defaultValidator cexBase cexCurr = true := by
      simp [overallFailB, cexBase, cexCurr, cexPathA, cexPathB, defaultValidator]
    rw [h0]
    rfl
  · rw [validate_status_eq]
    have h0 : overallFailB pathAllowedValidator cexBase cexCurr = false := by
      norm_num [overallFailB, cexBase, cexCurr, cexLat, cexPathA, cexPathB,
        pathAllowedValidator]
    rw [h0]
    rfl

/-- C2 (amended): the overall status of `validate` is never Warning: it is
Fail exactly when the latency check fails, the packet-loss check fails, or
the paths differ while `path_change_allowed` is false (each check counting
only when both snapshots carry the relevant field), and Pass otherwise.  In
particular a path-check Warning escalates the overall verdict to Fail when
`path_change_allowed` is false and leaves it untouched when true — the
overall verdict is not the most-severe sub-check status. -/
theorem validate_overall_status_characterization (v : NetworkValidator)
    (b c : TelemetryMetrics) :
    (v.validate b c).status ≠ ValidationStatus.warning
  ∧ ((v.validate b c).status = ValidationStatus.fail ↔
      ((∃ bl cl, b.latency = some bl ∧ c.latency = some cl ∧
        (cl.avg_latency_ms - bl.avg_latency_ms > v.latency_threshold_ms ∨
         cl.packet_loss_percent - bl.packet_loss_percent > v.packet_loss_threshold_percent))
       ∨ (∃ bp cp, b.path = some bp ∧ c.path = some cp ∧
           bp.hops.map PathHop.ip_address ≠ cp.hops.map PathHop.ip_address ∧
           v.path_change_allowed = false))) := by
  constructor
  · rw [validate_status_eq]
    split <;> simp
  · rw [validate_status_eq, ← overallFailB_iff v b c]
    by_cases hfb : overallFailB v b c <;> simp [hfb]

/-- C2 witness: the characterization applied at the concrete snapshots,
concluding the overall Fail of the default validator from the differing
hop-IP sequences. -/
theorem validate_overall_status_characterization_witness :
    (defaultValidator.validate cexBase cexCurr).status = ValidationStatus.fail :=
  (validate_overall_status_characterization defaultValidator cexBase cexCurr).2.mpr
    (Or.inr ⟨cexPathA, cexPathB, rfl, rfl, by simp [cexPathA, cexPathB], rfl⟩)

/-! ## Configuration interpreter lemmas -/

/-- Successful `send_config`: on a connected device with a node, the call
returns the post-state (history extended by the filtered lines, pending flag
set, interface register holding the final context), the command trace, and
the processed-line count. -/
theorem sendConfig_ok (exec : Exec) (d : SimDevice) (config : String)
    (hc : d.connected = true) (hn : d.hasNode = true) :
    SimDevice.sendConfig exec d config =
      .ok ({ d with
              applied_config := d.applied_config ++ configLines config,
              config_pending := true,
              current_interface :=
                (processLines exec d.device_type d.device_name none (configLines config)).1 },
           (processLines exec d.device_type d.device_name none (configLines config)).2,
           (configLines config).length) := by
  unfold SimDevice.sendConfig
  simp [hc, hn]

/-! ## C3 -/

/-- C3: for every executor behavior, `send_config` on a connected device with
a backing node reports the count of lines processed — the number of
non-blank, non-comment lines of the configuration text — and it raises
`DeviceError` exactly when the device is not connected or has no node
object. -/
theorem sendConfig_count_and_error_condition (exec : Exec) (d : SimDevice)
    (config : String) :
    (d.connected = true → d.hasNode = true →
      ∃ d2 ops, SimDevice.sendConfig exec d config =
        .ok (d2, ops, (configLines config).length))
  ∧ ((∃ e, SimDevice.sendConfig exec d config = .error e) ↔
      (d.connected = false ∨ d.hasNode = false)) := by
  constructor
  · intro hc hn
    exact ⟨_, _, sendConfig_ok exec d config hc hn⟩
  · unfold SimDevice.sendConfig
    by_cases hc : d.connected <;> by_cases hn : d.hasNode <;> simp [hc, hn]

/-- C3 witness: a config with one comment line, one blank line and two
command lines reports count 2 on the connected device; the same call on a
disconnected device raises. -/
theorem sendConfig_count_and_error_condition_witness :
    (∃ d2 ops, SimDevice.sendConfig cexExec cexDev
        "hostname r1\n# comment\n\nbanner motd foo" = .ok (d2, ops, 2))
  ∧ (∃ e, SimDevice.sendConfig cexExec { cexDev with connected := false }
        "hostname r1" = .error e) := by
  constructor
  · have h := (sendConfig_count_and_error_condition cexExec cexDev
      "hostname r1\n# comment\n\nbanner motd foo").1 rfl rfl
    have hlen : (configLines "hostname r1\n# comment\n\nbanner motd foo").length = 2 := by
      decide
    rw [hlen] at h
    exact h
  · exact (sendConfig_count_and_error_condition cexExec
      { cexDev with connected := false } "hostname r1").2.mpr (Or.inl rfl)

/-! ## C5 -/

/-- C5: a configuration line matching none of the recognized primitives
leaves the interface register unchanged and issues no commands; inserting it
anywhere into a configuration leaves the processing of every other line
untouched; and — for every executor behavior, including ones whose every
command invocation raises — `send_config` still succeeds and appends all
non-blank, non-comment lines (the unknown line included) to the history. -/
theorem unknown_line_ignored (exec : Exec) (dt dn : String) (ctx : Option String)
    (l : String) (ls1 ls2 : List String) (d : SimDevice) (config : String)
    (hl : lineRecognized l = false) :
    applyLine exec dt dn ctx l = (ctx, [])
  ∧ processLines exec dt dn ctx (ls1 ++ l :: ls2) = processLines exec dt dn ctx (ls1 ++ ls2)
  ∧ (d.connected = true → d.hasNode = true →
      ∃ d2 ops, SimDevice.sendConfig exec d config =
        .ok (d2, ops, (configLines config).length) ∧
      d2.applied_config.length = d.applied_config.length + (configLines config).length) := by
  have hl2 := hl
  simp only [lineRecognized, Bool.or_eq_false_iff] at hl2
  obtain ⟨⟨⟨hA, hB⟩, hC, hC2⟩, hD⟩ := hl2
  have hstep : ∀ c : Option String, applyLine exec dt dn c l = (c, []) := by
    intro c
    simp only [applyLine]
    rw [if_neg (by simp [hA]), if_neg (by simp [hB]), if_neg (by simp [hC, hC2]),
      if_neg (by simp [hD])]
  refine ⟨hstep ctx, ?_, ?_⟩
  · induction ls1 generalizing ctx with
    | nil => simp [processLines, hstep ctx]
    | cons x xs ih => simp [processLines, ih]
  · intro hc hn
    refine ⟨_, _, sendConfig_ok exec d config hc hn, ?_⟩
    simp

/-- C5 witness: with `banner motd foo` as the unknown line — a line no-op, an
insertion no-op among concrete lines, and a two-line config (one of them the
unknown line) whose full count is reported and appended. -/
theorem unknown_line_ignored_witness :
    applyLine cexExec "host" "h1" none "banner motd foo" = (none, [])
  ∧ processLines cexExec "host" "h1" none
      ["hostname r1", "banner motd foo", "ip route 10.0.1.0 10.0.0.254"] =
    processLines cexExec "host" "h1" none
      ["hostname r1", "ip route 10.0.1.0 10.0.0.254"]
  ∧ (∃ d2 ops, SimDevice.sendConfig cexExec cexDev "hostname r1\nbanner motd foo" =
        .ok (d2, ops, 2) ∧
      d2.applied_config.length = cexDev.applied_config.length + 2) := by
  have h := unknown_line_ignored cexExec "host" "h1" none "banner motd foo"
    ["hostname r1"] ["ip route 10.0.1.0 10.0.0.254"] cexDev
    "hostname r1\nbanner motd foo" (by decide)
  refine ⟨h.1, ?_, ?_⟩
  · simpa using h.2.1
  · have h3 := h.2.2 rfl rfl
    have hlen : (configLines "hostname r1\nbanner motd foo").length = 2 := by decide
    rw [hlen] at h3
    exact h3

/-! ## C9 -/

/-- C9: applying a configuration whose every line is blank or a `#` comment
leaves the history unchanged and invokes no device command, yet reports
success with count 0 and sets the pending flag; a subsequent `commit` clears
the flag. -/
theorem blank_config_frame (exec : Exec) (d : SimDevice) (config : String)
    (hc : d.connected = true) (hn : d.hasNode = true)
    (hblank : ∀ l ∈ pySplitOn config "\n",
      (pyStrip l).data.isEmpty = true ∨ pyStartsWith (pyStrip l) "#" = true) :
    ∃ d2, SimDevice.sendConfig exec d config = .ok (d2, [], 0)
      ∧ d2.applied_config = d.applied_config
      ∧ d2.config_pending = true
      ∧ SimDevice.commit d2 = .ok { d2 with config_pending := false } := by
  have hempty : configLines config = [] := by
    unfold configLines
    rw [List.filter_eq_nil_iff]
    intro l hlmem
    rcases hblank l hlmem with h1 | h1 <;> simp [h1]
  have h := sendConfig_ok exec d config hc hn
  rw [hempty] at h
  refine ⟨_, by simpa [processLines] using h, by simp, by simp, ?_⟩
  unfold SimDevice.commit
  simp [hc]

/-- C9 witness: a config of one blank line, one comment line and one
whitespace line on the concrete connected device. -/
theorem blank_config_frame_witness :
    ∃ d2, SimDevice.sendConfig cexExec cexDev "\n# comment\n   " = .ok (d2, [], 0)
      ∧ d2.applied_config = cexDev.applied_config
      ∧ d2.config_pending = true
      ∧ SimDevice.commit d2 = .ok { d2 with config_pending := false } :=
  blank_config_frame cexExec cexDev "\n# comment\n   " rfl rfl (by decide)

/-! ## C6 -/

/-- The "eth"-stripping replacement is the identity on all-digit character
lists (no digit can begin an occurrence of "eth"). -/
theorem replaceChars_eth_digits (rep : List Char) (fuel : Nat) (cs : List Char)
    (h : cs.all Char.isDigit = true) :
    replaceChars ['e', 't', 'h'] rep fuel cs = cs := by
  induction fuel generalizing cs with
  | zero => cases cs <;> rfl
  | succ n ih =>
    cases cs with
    | nil => rfl
    | cons c cs2 =>
      simp only [List.all_cons, Bool.and_eq_true] at h
      have hc : c.isDigit = true := h.1
      have hne : c ≠ 'e' := by
        intro he
        subst he
        exact absurd hc (by decide)
      have hpre : (List.isPrefixOf ['e', 't', 'h'] (c :: cs2)) = false := by
        show ('e' == c && List.isPrefixOf ['t', 'h'] cs2) = false
        have : ('e' == c) = false := by
          simp only [beq_eq_false_iff_ne, ne_eq]
          exact fun h2 => hne h2.symm
        simp [this]
      rw [replaceChars, if_neg (by simp [hpre]), ih cs2 h.2]

/-- Stripping "eth" from `"eth" ++ s` for all-digit `s` yields exactly `s`. -/
theorem pyReplace_eth_digits (s : String) (hne : s.data ≠ [])
    (h : s.data.all Char.isDigit = true) :
    pyReplace ("eth" ++ s) "eth" "" = s := by
  unfold pyReplace
  rw [if_neg (by decide)]
  have hdata : ("eth" ++ s).data = 'e' :: 't' :: 'h' :: s.data := by
    show ("eth".data ++ s.data) = _
    rfl
  rw [hdata]
  have hlen : ('e' :: 't' :: 'h' :: s.data).length = (s.data.length + 2) + 1 := by
    simp
  rw [hlen]
  show String.mk (replaceChars ['e', 't', 'h'] []
    ((s.data.length + 2) + 1) ('e' :: 't' :: 'h' :: s.data)) = s
  rw [replaceChars]
  rw [if_pos ⟨by decide, by simp [List.isPrefixOf]⟩]
  show String.mk ([] ++ replaceChars ['e', 't', 'h'] [] (s.data.length + 2)
    (List.drop 2 ('t' :: 'h' :: s.data))) = s
  simp only [List.nil_append, List.drop_succ_cons, List.drop_zero]
  rw [replaceChars_eth_digits [] (s.data.length + 2) s.data h]

/-- C6 counterexample: the context name "veth2" has trailing numeric suffix 2,
for which the claim predicts numeral 3 on a switch (2+1) and numeral 2 on a
host; the code instead strips the literal substring "eth", obtaining "v2",
which is not all digits, so a switch falls back to numeral 1 and a host keeps
the remainder "v2" verbatim. -/
theorem deriveIfName_trailing_suffix_cex :
    deriveIfName "switch" "s1" (some "veth2") = "s1-eth1"
  ∧ "s1-eth1" ≠ "s1-eth3"
  ∧ deriveIfName "host" "h1" (some "veth2") = "h1-ethv2"
  ∧ "h1-ethv2" ≠ "h1-eth2"
  ∧ (applyLine cexExec "switch" "s1" (some "veth2") "ip address 10.0.0.1").2.head? =
      some "ip addr flush dev s1-eth1 2>&1" := by
  refine ⟨?_, by decide, ?_, by decide, ?_⟩ <;> decide

/-- C6 (amended): for an interface context of the form `eth<digits>` the
target numeral is the digit value plus one on switches and the digit value
itself on every other device type, and with no context it defaults to 1 on
switches and 0 otherwise — because the code strips the literal substring
"eth" rather than extracting a trailing numeric suffix, context names such as
"veth2" instead fall back to numeral 1 on switches and keep the stripped
remainder verbatim on other types (see the counterexample). -/
theorem deriveIfName_eth_numeral (device_name s ctx : String)
    (hne : s.data ≠ []) (hd : s.data.all Char.isDigit = true)
    (hctx : ctx = "eth" ++ s) :
    deriveIfName "switch" device_name (some ctx) =
      device_name ++ "-eth" ++ toString (natOfDigits s + 1)
  ∧ (∀ dt, dt ≠ "switch" → deriveIfName dt device_name (some ctx) =
      device_name ++ "-eth" ++ s)
  ∧ deriveIfName "switch" device_name none = device_name ++ "-eth1"
  ∧ (∀ dt, dt ≠ "switch" → deriveIfName dt device_name none = device_name ++ "-eth0") := by
  subst hctx
  have hrep := pyReplace_eth_digits s hne hd
  have hdata : ("eth" ++ s).data = 'e' :: 't' :: 'h' :: s.data := by
    show ("eth".data ++ s.data) = _
    rfl
  have hnonempty : (("eth" ++ s).data.isEmpty) = false := by
    rw [hdata]
    rfl
  have hdig : isPyDigits s = true := by
    simp [isPyDigits, hd, hne]
  refine ⟨?_, ?_, by simp [deriveIfName], ?_⟩
  · simp [deriveIfName, hnonempty, hrep, hdig, natOfDigits]
  · intro dt hdt
    simp [deriveIfName, hnonempty, hrep, hdt]
  · intro dt hdt
    simp [deriveIfName, hdt]

/-- C6 witness: the amended statement at `eth0`: a switch targets numeral
0 + 1 = 1 and a host keeps numeral 0. -/
theorem deriveIfName_eth_numeral_witness :
    deriveIfName "switch" "s1" (some "eth0") = "s1" ++ "-eth" ++ toString (natOfDigits "0" + 1)
  ∧ ("s1" ++ "-eth" ++ toString (natOfDigits "0" + 1)) = "s1-eth1"
  ∧ deriveIfName "host" "h1" (some "eth0") = "h1" ++ "-eth" ++ "0" := by
  have h1 := deriveIfName_eth_numeral "s1" "0" "eth0" (by decide) (by decide) (by decide)
  have h2 := deriveIfName_eth_numeral "h1" "0" "eth0" (by decide) (by decide) (by decide)
  exact ⟨h1.1, by decide, h2.2.1 "host" (by decide)⟩

/-! ## C8 -/

/-- C8: `deploy_config` with commit requested, over the simulated device
operations: (1) on a session that is not connected it raises without touching
the device; (2) on a connected session whose device is connected with a node,
it invokes the interpreter apply step and then the commit step, returning the
committed device state with no error and the session still connected; (3) if
the device-level step raises (device not connected or without node), the
failure is wrapped in the deploy error message, the device is unchanged, and
the session is left connected; and (4) over arbitrary device operations, any
failure of either step surfaces as the wrapped deploy error and the session
`_connected` flag always stays true. -/
theorem deploy_config_behavior (exec : Exec) (s : Session SimDevice)
    (config : String) :
    (s.connected = false →
      Session.deployConfig (simOps exec) s config true =
        (s, some "Session not connected to device"))
  ∧ (s.connected = true → s.device.connected = true → s.device.hasNode = true →
      ∃ d1 ops n d2,
        SimDevice.sendConfig exec s.device config = .ok (d1, ops, n) ∧
        SimDevice.commit d1 = .ok d2 ∧
        Session.deployConfig (simOps exec) s config true =
          ({ s with device := d2 }, none) ∧
        ({ s with device := d2 } : Session SimDevice).connected = true)
  ∧ (s.connected = true →
      (s.device.connected = false ∨ s.device.hasNode = false) →
      ∃ e, Session.deployConfig (simOps exec) s config true =
        ({ s with device := s.device },
         some ("Failed to deploy configuration to device: " ++ e)) ∧
        ({ s with device := s.device } : Session SimDevice).connected = true)
  ∧ (∀ (δ : Type) (ops : DevOps δ) (s2 : Session δ) (cfg : String) (doCommit : Bool),
      s2.connected = true →
      ((Session.deployConfig ops s2 cfg doCommit).2 = none ∨
        ∃ msg, (Session.deployConfig ops s2 cfg doCommit).2 =
          some ("Failed to deploy configuration to device: " ++ msg)) ∧
      (Session.deployConfig ops s2 cfg doCommit).1.connected = true) := by
  refine ⟨?_, ?_, ?_, ?_⟩
  · intro hs
    unfold Session.deployConfig
    simp [hs]
  · intro hs hc hn
    have hsend := sendConfig_ok exec s.device config hc hn
    have hcommit : SimDevice.commit
        { s.device with
          applied_config := s.device.applied_config ++ configLines config,
          config_pending := true,
          current_interface :=
            (processLines exec s.device.device_type s.device.device_name none
              (configLines config)).1 } =
        .ok { s.device with
          applied_config := s.device.applied_config ++ configLines config,
          config_pending := false,
          current_interface :=
            (processLines exec s.device.device_type s.device.device_name none
              (configLines config)).1 } := by
      unfold SimDevice.commit
      simp [hc]
    refine ⟨_, _, _, _, hsend, hcommit, ?_, hs⟩
    unfold Session.deployConfig
    simp only [hs, Bool.not_true]
    rw [if_neg (by simp)]
    simp only [simOps, hsend, hcommit]
    simp [hs]
  · intro hs hdev
    have herr : ∃ e, SimDevice.sendConfig exec s.device config = .error e := by
      unfold SimDevice.sendConfig
      rcases hdev with h1 | h1 <;> simp [h1] <;>
        by_cases h2 : s.device.connected <;> simp [h2]
    obtain ⟨e, he⟩ := herr
    refine ⟨e, ?_, hs⟩
    unfold Session.deployConfig
    rw [if_neg (by simp [hs])]
    simp only [simOps, he]
  · intro δ ops s2 cfg doCommit hs2
    unfold Session.deployConfig
    rw [if_neg (by simp [hs2])]
    rcases h1 : (ops.devSendConfig s2.device cfg).2 with _ | e1
    · simp only [h1]
      cases doCommit with
      | false => exact ⟨Or.inl (by trivial), hs2⟩
      | true =>
        rcases h2 : (ops.devCommit (ops.devSendConfig s2.device cfg).1).2 with _ | e2 <;>
          simp only [h2, if_pos trivial]
        · exact ⟨Or.inl (by trivial), hs2⟩
        · exact ⟨Or.inr ⟨e2, by trivial⟩, hs2⟩
    · simp only [h1]
      exact ⟨Or.inr ⟨e1, by trivial⟩, hs2⟩

/-- C8 witness: the three cases of the deploy behavior at concrete inputs —
a disconnected session, the connected session over the connected device, and
the connected session over a device without connection. -/
theorem deploy_config_behavior_witness :
    (Session.deployConfig (simOps cexExec) { device := cexDev, connected := false }
        "hostname r1" true =
      ({ device := cexDev, connected := false }, some "Session not connected to device"))
  ∧ (∃ d1 ops n d2,
      SimDevice.sendConfig cexExec cexDev "hostname r1" = .ok (d1, ops, n) ∧
      SimDevice.commit d1 = .ok d2 ∧
      Session.deployConfig (simOps cexExec) cexSession "hostname r1" true =
        ({ cexSession with device := d2 }, none))
  ∧ (∃ e, Session.deployConfig (simOps cexExec)
        { device := { cexDev with connected := false }, connected := true }
        "hostname r1" true =
      ({ device := { cexDev with connected := false }, connected := true },
       some ("Failed to deploy configuration to device: " ++ e))) := by
  refine ⟨?_, ?_, ?_⟩
  · exact (deploy_config_behavior cexExec
      { device := cexDev, connected := false } "hostname r1").1 rfl
  · obtain ⟨d1, ops, n, d2, h1, h2, h3, _⟩ :=
      (deploy_config_behavior cexExec cexSession "hostname r1").2.1 rfl rfl rfl
    exact ⟨d1, ops, n, d2, h1, h2, h3⟩
  · obtain ⟨e, he, -⟩ := (deploy_config_behavior cexExec
      { device := { cexDev with connected := false }, connected := true }
      "hostname r1").2.2.1 rfl (Or.inl rfl)
    exact ⟨e, he⟩

/-! ## C10 -/

/-- C10: session `disconnect` is a total function — it never surfaces an
exception for any underlying device behavior: a session that is not
connected is returned unchanged; when the device-level disconnect raises the
exception is caught and the session flag stays `true`; when it returns
normally the flag is cleared; and the context-manager exit path is exactly a
call to `disconnect` followed by returning `False`. -/
theorem session_disconnect_total {δ : Type} (ops : DevOps δ) (s : Session δ) :
    (s.connected = false → Session.disconnect ops s = s)
  ∧ (s.connected = true → (ops.devDisconnect s.device).2.isSome = true →
      (Session.disconnect ops s).connected = true)
  ∧ (s.connected = true → (ops.devDisconnect s.device).2 = none →
      (Session.disconnect ops s).connected = false)
  ∧ Session.exitCtx ops s = (Session.disconnect ops s, false) := by
  refine ⟨?_, ?_, ?_, rfl⟩
  · intro hs
    unfold Session.disconnect
    simp [hs]
  · intro hs hr
    unfold Session.disconnect
    rw [if_neg (by simp [hs])]
    rcases hd : (ops.devDisconnect s.device).2 with _ | e
    · rw [hd] at hr
      exact absurd hr (by simp)
    · simp [hd, hs]
  · intro hs hr
    unfold Session.disconnect
    rw [if_neg (by simp [hs])]
    simp [hr]

/-- C10 witness: a not-connected session is returned unchanged; a connected
session over raising device operations keeps its connected flag; a connected
session over the simulated operations ends up disconnected. -/
theorem session_disconnect_total_witness :
    (Session.disconnect (simOps cexExec) { device := cexDev, connected := false } =
      { device := cexDev, connected := false })
  ∧ (Session.disconnect cexRaisingOps cexSession).connected = true
  ∧ (Session.disconnect (simOps cexExec) cexSession).connected = false := by
  refine ⟨?_, ?_, ?_⟩
  · exact (session_disconnect_total (simOps cexExec)
      { device := cexDev, connected := false }).1 rfl
  · exact (session_disconnect_total cexRaisingOps cexSession).2.1 rfl rfl
  · exact (session_disconnect_total (simOps cexExec) cexSession).2.2.1 rfl (by decide)

/-! ## C4 -/

/-- The captured decimal value of a loss match is never negative. -/
theorem ratOfDigitParts_nonneg (d f : List Char) : 0 ≤ ratOfDigitParts d f := by
  unfold ratOfDigitParts
  positivity

/-- The extracted packet-loss percentage is never negative (the pattern
captures an unsigned decimal and the fallback is 0.0). -/
theorem pingLoss_nonneg (output : String) : 0 ≤ pingLoss output := by
  unfold pingLoss
  rcases pingLossMatch output with _ | r
  · norm_num
  · exact ratOfDigitParts_nonneg r.1 r.2

/-- C4 counterexample: the raw output "150% packet loss" parses successfully
and yields `packet_loss_percent = 150`, outside the claimed interval
`[0, 100]` — the captured value is not clamped. -/
theorem parsePing_loss_out_of_range_cex :
    ∃ m, parsePingOutput "150% packet loss" "h1" "h2" = some m
      ∧ m.packet_loss_percent = 150
      ∧ ¬ m.packet_loss_percent ≤ 100 := by
  have hloss : pingLoss "150% packet loss" = 150 := by
    have hmm : pingLossMatch "150% packet loss" = some (['1', '5', '0'], []) := by
      decide
    unfold pingLoss
    rw [hmm]
    show ratOfDigitParts ['1', '5', '0'] [] = 150
    unfold ratOfDigitParts
    rw [show natOfDigitList ['1', '5', '0'] = 150 from by decide,
      show natOfDigitList [] = 0 from rfl]
    norm_num
  have hrtt : pingRttMatch "150% packet loss" = none := by decide
  refine ⟨{ source := "h1", destination := "h2", min_latency_ms := 0,
            avg_latency_ms := 0, max_latency_ms := 0,
            packet_loss_percent := pingLoss "150% packet loss" }, ?_, ?_, ?_⟩
  · simp only [parsePingOutput, hrtt]
  · show pingLoss "150% packet loss" = 150
    exact hloss
  · show ¬ pingLoss "150% packet loss" ≤ 100
    rw [hloss]
    norm_num

/-- C4 (amended): the packet-loss percentage produced by the latency parser
is the unclamped value captured by the pattern (0.0 when the pattern is
absent): it is always ≥ 0, and it lies in `[0, 100]` exactly when the
captured value is ≤ 100 — raw outputs reporting a loss above 100 % yield
values above 100 (see the counterexample). -/
theorem parsePing_loss_range (output src dst : String) (m : LatencyMetrics)
    (h : parsePingOutput output src dst = some m) :
    0 ≤ m.packet_loss_percent
  ∧ m.packet_loss_percent = pingLoss output
  ∧ (pingLoss output ≤ 100 →
      0 ≤ m.packet_loss_percent ∧ m.packet_loss_percent ≤ 100) := by
  have hm : m.packet_loss_percent = pingLoss output := by
    unfold parsePingOutput at h
    rcases hrt : pingRttMatch output with _ | g
    · simp only [hrt, Option.some.injEq] at h
      rw [← h]
    · simp only [hrt] at h
      split at h
      · simp only [Option.some.injEq] at h
        rw [← h]
      · exact absurd h (by simp)
  refine ⟨?_, hm, ?_⟩
  · rw [hm]
    exact pingLoss_nonneg output
  · intro hle
    exact ⟨by rw [hm]; exact pingLoss_nonneg output, by rw [hm]; exact hle⟩

/-- C4 witness: a well-formed probe output with 0 % loss parses to a value
inside `[0, 100]`. -/
theorem parsePing_loss_range_witness :
    ∃ m, parsePingOutput "5 packets transmitted, 5 received, 0% packet loss"
        "h1" "h2" = some m
      ∧ 0 ≤ m.packet_loss_percent ∧ m.packet_loss_percent ≤ 100 := by
  have hrtt : pingRttMatch "5 packets transmitted, 5 received, 0% packet loss" =
      none := by decide
  have hloss : pingLoss "5 packets transmitted, 5 received, 0% packet loss" = 0 := by
    have hmm : pingLossMatch "5 packets transmitted, 5 received, 0% packet loss" =
        some (['0'], []) := by decide
    unfold pingLoss
    rw [hmm]
    show ratOfDigitParts ['0'] [] = 0
    unfold ratOfDigitParts
    rw [show natOfDigitList ['0'] = 0 from by decide,
      show natOfDigitList [] = 0 from rfl]
    norm_num
  have hp : parsePingOutput "5 packets transmitted, 5 received, 0% packet loss"
      "h1" "h2" =
      some { source := "h1", destination := "h2", min_latency_ms := 0,
             avg_latency_ms := 0, max_latency_ms := 0,
             packet_loss_percent :=
               pingLoss "5 packets transmitted, 5 received, 0% packet loss" } := by
    simp only [parsePingOutput, hrtt]
  obtain ⟨h0, hEq, hRange⟩ := parsePing_loss_range
    "5 packets transmitted, 5 received, 0% packet loss" "h1" "h2" _ hp
  exact ⟨_, hp, hRange (by rw [hloss]; norm_num)⟩

/-! ## C7 -/

/-- On a list of good lines (see `goodCounterLine`) the line loop succeeds
and produces exactly one record per kept line. -/
theorem procNetDevGo_good (ls : List String)
    (h : ∀ l ∈ ls, goodCounterLine l = true) :
    ∃ cs, procNetDevGo ls = .ok cs
      ∧ cs.length = (ls.filter counterLineKept).length := by
  induction ls with
  | nil => exact ⟨[], rfl, rfl⟩
  | cons l ls ih =>
    obtain ⟨cs, hcs, hlen⟩ := ih fun x hx => h x (List.mem_cons_of_mem _ hx)
    have hl := h l (List.mem_cons_self _ _)
    by_cases hb : (pyStrip l).data.isEmpty = true ∨ strContains (pyStrip l) ":" = false
    · have hk : counterLineKept l = false := by
        unfold counterLineKept
        rw [if_pos hb]
      refine ⟨cs, ?_, ?_⟩
      · simp only [procNetDevGo]
        rw [if_pos hb]
        exact hcs
      · simp [List.filter_cons, hk, hlen]
    · rcases hsp : pySplitOn (pyStrip l) ":" with _ | ⟨p0, _ | ⟨p1, _ | ⟨p2, rest3⟩⟩⟩
      · have hk : counterLineKept l = false := by
          unfold counterLineKept
          rw [if_neg hb, hsp]
        refine ⟨cs, ?_, ?_⟩
        · simp only [procNetDevGo]
          rw [if_neg hb, hsp]
          exact hcs
        · simp [List.filter_cons, hk, hlen]
      · have hk : counterLineKept l = false := by
          unfold counterLineKept
          rw [if_neg hb, hsp]
        refine ⟨cs, ?_, ?_⟩
        · simp only [procNetDevGo]
          rw [if_neg hb, hsp]
          exact hcs
        · simp [List.filter_cons, hk, hlen]
      · by_cases h16 : (pySplit p1).length < 16
        · have hk : counterLineKept l = false := by
            unfold counterLineKept
            rw [if_neg hb, hsp]
            simp [h16]
          refine ⟨cs, ?_, ?_⟩
          · simp only [procNetDevGo]
            rw [if_neg hb, hsp]
            simp only [if_pos h16]
            exact hcs
          · simp [List.filter_cons, hk, hlen]
        · have hgood : ((pyInt? ((pySplit p1).getD 0 "")).isSome &&
              (pyInt? ((pySplit p1).getD 1 "")).isSome &&
              (pyInt? ((pySplit p1).getD 3 "")).isSome &&
              (pyInt? ((pySplit p1).getD 8 "")).isSome &&
              (pyInt? ((pySplit p1).getD 9 "")).isSome &&
              (pyInt? ((pySplit p1).getD 11 "")).isSome) = true := by
            have hthis := hl
            unfold goodCounterLine at hthis
            rw [if_neg hb] at hthis
            simp only [hsp] at hthis
            rw [if_neg h16] at hthis
            simpa [Bool.and_assoc] using hthis
          simp only [Bool.and_eq_true, Option.isSome_iff_exists] at hgood
          obtain ⟨⟨⟨⟨⟨⟨v0, hv0⟩, v1, hv1⟩, v3, hv3⟩, v8, hv8⟩, v9, hv9⟩, v11, hv11⟩ := hgood
          have hk : counterLineKept l = true := by
            unfold counterLineKept
            rw [if_neg hb, hsp]
            simp [h16]
          refine ⟨{ interface_name := pyStrip p0,
                    bytes_sent := v8, bytes_received := v0,
                    packets_sent := v9, packets_received := v1,
                    drops_sent := v11, drops_received := v3 } :: cs, ?_, ?_⟩
          · simp only [procNetDevGo]
            rw [if_neg hb]
            simp only [hsp]
            rw [if_neg h16]
            simp only [hv0, hv1, hv3, hv8, hv9, hv11, hcs]
          · simp [List.filter_cons, hk, hlen]
      · have hk : counterLineKept l = false := by
          unfold counterLineKept
          rw [if_neg hb, hsp]
        refine ⟨cs, ?_, ?_⟩
        · simp only [procNetDevGo]
          rw [if_neg hb, hsp]
          exact hcs
        · simp [List.filter_cons, hk, hlen]

/-- C7 counterexample: a line with 16 whitespace-separated fields after the
colon whose first field is not numeric — so it has fewer than 16 numeric
fields — is not skipped: the parser raises (`int("x")` raises
`ValueError`). -/
theorem parseProcNetDev_raises_cex :
    (pySplit " x 1 2 3 4 5 6 7 8 9 10 11 12 13 14 15").length = 16
  ∧ pyInt? "x" = none
  ∧ parseProcNetDev "eth0: x 1 2 3 4 5 6 7 8 9 10 11 12 13 14 15" "h1" =
      .error "ValueError: invalid literal for int" :=
  ⟨by decide, by decide, by decide⟩

/-- C7 (amended): the interface-counter parser skips without error every
line that is blank, has no colon or a multi-colon split, or has fewer than 16
whitespace-separated fields after the colon, and — whenever on every
16-or-more-field line the six consumed positions (0, 1, 3, 8, 9, 11) parse
as integers — it returns one record per such kept line; but a line with at
least 16 fields among which a consumed position is non-numeric raises
`ValueError` (see the counterexample), so the parser is not total on
arbitrary text. -/
theorem parseProcNetDev_total_on_good (output node_name : String)
    (h : ∀ l ∈ pySplitOn output "\n", goodCounterLine l = true) :
    ∃ cs, parseProcNetDev output node_name = .ok cs
      ∧ cs.length = ((pySplitOn output "\n").filter counterLineKept).length := by
  unfold parseProcNetDev
  exact procNetDevGo_good _ h

/-- C7 witness: a dump with one full counter line and one short line parses
to exactly one record. -/
theorem parseProcNetDev_total_on_good_witness :
    ∃ cs, parseProcNetDev
        "eth0: 1 2 3 4 5 6 7 8 9 10 11 12 13 14 15 16\nlo: 1 2 3" "h1" = .ok cs
      ∧ cs.length = 1 := by
  obtain ⟨cs, h1, h2⟩ := parseProcNetDev_total_on_good
    "eth0: 1 2 3 4 5 6 7 8 9 10 11 12 13 14 15 16\nlo: 1 2 3" "h1" (by decide)
  refine ⟨cs, h1, ?_⟩
  rw [h2]
  decide

end NCP
